import Mathlib

/-!
Verification of the discovery_app_api server (src/app.js): the in-memory
icon registry (admin add / activate, client reads) and the feedback
ingestion pipeline (validation, per-file Cloudinary upload with
partial-failure tolerance, Google-Sheets append, header bootstrap,
row listing).  All definitions are shallow embeddings of the JavaScript
in src/app.js; dates are modelled as abstract Nat ticks and the external
services (Cloudinary, Sheets) as explicit outcome parameters.
-/

namespace DiscoveryApi

/-! ## Icon registry (src/app.js lines 39-58, 431-594)

The JS object `activeIcons` maps icon identifiers to records; JS string
keys of an object literal enumerate in insertion order, so the registry
is embedded as an association list in insertion order. -/

/-- One value of the `activeIcons` table: `{ name, url, isActive, lastUpdated }`. -/
structure IconRecord where
  name : String
  url : String
  isActive : Bool
  lastUpdated : Nat
deriving DecidableEq, Repr

/-- The `activeIcons` object: identifier-keyed records in insertion order. -/
abbrev Registry := List (String × IconRecord)

/-- Property access `activeIcons[iconName]` on own keys. -/
def lookupIcon : Registry → String → Option IconRecord
  | [], _ => none
  | p :: rest, id => if p.1 = id then some p.2 else lookupIcon rest id

/-- The identifiers in insertion order, `Object.keys(activeIcons)`. -/
def keysOf (reg : Registry) : List String := reg.map Prod.fst

/-- The bootstrap table at lines 39-58: three entries, only `DEFAULT`
active; `t0 t1 t2` are the three `new Date()` values taken at load. -/
def initIcons (t0 t1 t2 : Nat) : Registry :=
  [("DEFAULT", { name := "Default", url := "/uploads/icons/default.png",
                 isActive := true, lastUpdated := t0 }),
   ("navratri1", { name := "Navratri 1", url := "/uploads/icons/navratri1.png",
                   isActive := false, lastUpdated := t1 }),
   ("navratri3", { name := "Navratri 3", url := "/uploads/icons/navratri3.png",
                   isActive := false, lastUpdated := t2 })]

/-- Rejections of the two admin mutation routes. -/
inductive IconError where
  | missingFields
  | missingId
  | alreadyExists
  | notFound
deriving DecidableEq, Repr

/-- `POST /api/admin/icons/add` (lines 548-594): reject missing fields,
reject a duplicate id, otherwise insert a new inactive entry. -/
def addIcon (reg : Registry) (iconName displayName iconUrl : String) (now : Nat) :
    Except IconError Registry :=
  if iconName = "" ∨ displayName = "" ∨ iconUrl = "" then .error .missingFields
  else if (lookupIcon reg iconName).isSome then .error .alreadyExists
  else .ok (reg ++ [(iconName, { name := displayName, url := iconUrl,
                                 isActive := false, lastUpdated := now })])

/-- The successful-activation mutation (lines 487-494): every entry
first gets `isActive := false`, then the target gets `isActive := true`
and a fresh `lastUpdated`.  Note only the target record gets a new
`lastUpdated`. -/
def activatedReg (reg : Registry) (iconName : String) (now : Nat) : Registry :=
  reg.map (fun p =>
    if p.1 = iconName then (p.1, { p.2 with isActive := true, lastUpdated := now })
    else (p.1, { p.2 with isActive := false }))

/-- `POST /api/admin/icons/activate` (lines 466-517): reject a missing
id, reject an unknown id, otherwise run the activation mutation. -/
def activateIcon (reg : Registry) (iconName : String) (now : Nat) :
    Except IconError Registry :=
  if iconName = "" then .error .missingId
  else if (lookupIcon reg iconName).isNone then .error .notFound
  else .ok (activatedReg reg iconName now)

/-- `GET /api/app/current-icon` (line 434):
`Object.keys(activeIcons).find(key => activeIcons[key].isActive)`. -/
def getActive (reg : Registry) : Option (String × IconRecord) :=
  reg.find? (fun p => p.2.isActive)

/-- One admin mutation request, carrying the clock value of its
`new Date()`. -/
inductive AdminOp where
  | add (iconName displayName iconUrl : String) (now : Nat)
  | activate (iconName : String) (now : Nat)

/-- Serve one admin request: a rejected request sends a 400 and leaves
the table untouched (the handlers return before mutating). -/
def applyOp (reg : Registry) : AdminOp → Registry
  | .add n d u t =>
      match addIcon reg n d u t with
      | .ok reg2 => reg2
      | .error _ => reg
  | .activate n t =>
      match activateIcon reg n t with
      | .ok reg2 => reg2
      | .error _ => reg

/-- Serve a sequence of admin requests in order. -/
def runOps (reg : Registry) : List AdminOp → Registry
  | [] => reg
  | op :: ops => runOps (applyOp reg op) ops

/-- How many entries of the table are currently active. -/
def countActive (reg : Registry) : Nat :=
  (reg.filter (fun p => p.2.isActive)).length

/-- The registry invariant: identifiers are unique, and exactly one
entry is active. -/
def RegInv (reg : Registry) : Prop :=
  (keysOf reg).Nodup ∧ countActive reg = 1

theorem keysOf_nil : keysOf [] = [] := rfl

theorem keysOf_cons (p : String × IconRecord) (rest : Registry) :
    keysOf (p :: rest) = p.1 :: keysOf rest := rfl

theorem keysOf_append (a b : Registry) :
    keysOf (a ++ b) = keysOf a ++ keysOf b := by
  simp [keysOf]

theorem activatedReg_cons (p : String × IconRecord) (rest : Registry)
    (n : String) (t : Nat) :
    activatedReg (p :: rest) n t =
      (if p.1 = n then (p.1, { p.2 with isActive := true, lastUpdated := t })
       else (p.1, { p.2 with isActive := false })) :: activatedReg rest n t := by
  simp [activatedReg]

theorem countActive_cons (p : String × IconRecord) (rest : Registry) :
    countActive (p :: rest) =
      (if p.2.isActive then 1 else 0) + countActive rest := by
  cases hb : p.2.isActive <;> simp [countActive, List.filter_cons, hb, Nat.add_comm]

theorem lookupIcon_eq_none_iff (reg : Registry) (id : String) :
    lookupIcon reg id = none ↔ id ∉ keysOf reg := by
  induction reg with
  | nil => simp [lookupIcon, keysOf]
  | cons p rest ih =>
    by_cases h : p.1 = id
    · simp [lookupIcon, h, keysOf_cons]
    · have h2 : ¬id = p.1 := fun hq => h hq.symm
      simp [lookupIcon, h, keysOf_cons, h2, ih]

theorem countActive_append (a b : Registry) :
    countActive (a ++ b) = countActive a + countActive b := by
  simp [countActive, List.filter_append]

theorem keysOf_activated (reg : Registry) (n : String) (t : Nat) :
    keysOf (activatedReg reg n t) = keysOf reg := by
  induction reg with
  | nil => rfl
  | cons p rest ih =>
    by_cases h : p.1 = n <;>
      simp [activatedReg_cons, keysOf_cons, h, ih]

theorem countActive_activated (reg : Registry) (n : String) (t : Nat) :
    countActive (activatedReg reg n t) =
      (reg.filter (fun p => decide (p.1 = n))).length := by
  induction reg with
  | nil => rfl
  | cons p rest ih =>
    by_cases h : p.1 = n <;>
      simp [activatedReg_cons, countActive_cons, List.filter_cons, h, ih] <;>
      omega

theorem filter_key_eq_nil (reg : Registry) (n : String) (h : n ∉ keysOf reg) :
    reg.filter (fun p => decide (p.1 = n)) = [] := by
  induction reg with
  | nil => rfl
  | cons p rest ih =>
    rw [keysOf_cons] at h
    simp at h
    have h1 : ¬(p.1 = n) := fun hq => h.1 hq.symm
    simp [List.filter_cons, h1, ih h.2]

theorem filter_key_singleton (reg : Registry) (n : String)
    (hnd : (keysOf reg).Nodup) (h : (lookupIcon reg n).isSome) :
    (reg.filter (fun p => decide (p.1 = n))).length = 1 := by
  induction reg with
  | nil => simp [lookupIcon] at h
  | cons p rest ih =>
    rw [keysOf_cons] at hnd
    have hnd2 := List.nodup_cons.mp hnd
    by_cases hp : p.1 = n
    · have hmem : n ∉ keysOf rest := by rw [← hp]; exact hnd2.1
      simp [List.filter_cons, hp, filter_key_eq_nil rest n hmem]
    · have h2 : (lookupIcon rest n).isSome := by
        simpa [lookupIcon, hp] using h
      simp [List.filter_cons, hp, ih hnd2.2 h2]

theorem regInv_applyOp (reg : Registry) (op : AdminOp) (h : RegInv reg) :
    RegInv (applyOp reg op) := by
  obtain ⟨hnd, hcount⟩ := h
  cases op with
  | add n d u t =>
    by_cases hv : n = "" ∨ d = "" ∨ u = ""
    · simpa [applyOp, addIcon, hv] using And.intro hnd hcount
    · cases he : lookupIcon reg n with
      | some r => simpa [applyOp, addIcon, hv, he] using And.intro hnd hcount
      | none =>
        have hmem : n ∉ keysOf reg := (lookupIcon_eq_none_iff reg n).mp he
        have happ : applyOp reg (AdminOp.add n d u t)
            = reg ++ [(n, { name := d, url := u,
                            isActive := false, lastUpdated := t })] := by
          simp [applyOp, addIcon, hv, he]
        constructor
        · rw [happ, keysOf_append]
          refine hnd.append (by simp [keysOf]) ?dj
          intro x hx hn
          simp [keysOf] at hn
          subst hn
          exact hmem hx
        · rw [happ, countActive_append, hcount]
          rfl
  | activate n t =>
    by_cases hv : n = ""
    · simpa [applyOp, activateIcon, hv] using And.intro hnd hcount
    · cases he : lookupIcon reg n with
      | none => simpa [applyOp, activateIcon, hv, he] using And.intro hnd hcount
      | some r =>
        have hsome : (lookupIcon reg n).isSome := by simp [he]
        have happ : applyOp reg (AdminOp.activate n t) = activatedReg reg n t := by
          simp [applyOp, activateIcon, hv, he]
        exact ⟨by rw [happ, keysOf_activated]; exact hnd,
               by rw [happ, countActive_activated]
                  exact filter_key_singleton reg n hnd hsome⟩

theorem regInv_runOps (reg : Registry) (ops : List AdminOp) (h : RegInv reg) :
    RegInv (runOps reg ops) := by
  induction ops generalizing reg with
  | nil => exact h
  | cons op ops ih => exact ih (applyOp reg op) (regInv_applyOp reg op h)

theorem regInv_init (t0 t1 t2 : Nat) : RegInv (initIcons t0 t1 t2) := by
  constructor
  · simp [initIcons, keysOf]
  · rfl

/-- C1: starting from the bootstrap registry, after every sequence of
admin operations (each add inserts a new inactive entry, each successful
activate clears every isActive flag and then sets the target), exactly
one entry of the registry has isActive true: never zero, never two. -/
theorem c1_exactly_one_active (t0 t1 t2 : Nat) (ops : List AdminOp) :
    countActive (runOps (initIcons t0 t1 t2) ops) = 1 :=
  (regInv_runOps (initIcons t0 t1 t2) ops (regInv_init t0 t1 t2)).2

theorem lookupIcon_activated (reg : Registry) (n : String) (t : Nat) (id : String) :
    lookupIcon (activatedReg reg n t) id =
      (lookupIcon reg id).map (fun r =>
        if id = n then { r with isActive := true, lastUpdated := t }
        else { r with isActive := false }) := by
  induction reg with
  | nil => rfl
  | cons p rest ih =>
    rw [activatedReg_cons]
    by_cases hp : p.1 = id
    · by_cases hn : p.1 = n
      · have hid : id = n := hp.symm.trans hn
        rw [if_pos hn]
        simp [lookupIcon, hp, hid]
      · have hid : ¬(id = n) := fun hq => hn (hp.trans hq)
        rw [if_neg hn]
        simp [lookupIcon, hp, hid]
    · by_cases hn : p.1 = n
      · have hnid : ¬(n = id) := fun hq => hp (hn.trans hq)
        rw [if_pos hn]
        simp [lookupIcon, hp, hn, hnid, ih]
      · rw [if_neg hn]
        simp [lookupIcon, hp, ih]

/-- C4 (counterexample to the claim as stated): activating navratri1 at
tick 5 from the bootstrap table (all bootstrap ticks 0) flips DEFAULT
off and navratri1 on, but the previously active DEFAULT record keeps
lastUpdated = 0: the code refreshes only the target record, so the
lastUpdated of the previously active record is NOT updated. -/
theorem c4_counterexample :
    activateIcon (initIcons 0 0 0) "navratri1" 5 =
      .ok [("DEFAULT", { name := "Default", url := "/uploads/icons/default.png",
                         isActive := false, lastUpdated := 0 }),
           ("navratri1", { name := "Navratri 1", url := "/uploads/icons/navratri1.png",
                           isActive := true, lastUpdated := 5 }),
           ("navratri3", { name := "Navratri 3", url := "/uploads/icons/navratri3.png",
                           isActive := false, lastUpdated := 0 })] ∧
    (0 : Nat) ≠ 5 :=
  ⟨rfl, by decide⟩

/-- C4 (amended): a successful activate of a target different from the
previously active entry flips the previous entry to inactive and the
target to active, refreshing ONLY the target record's lastUpdated; the
previously active record keeps its old lastUpdated unchanged. -/
theorem c4_activate_updates (reg reg2 : Registry) (prev target : String)
    (t : Nat) (rp rt : IconRecord)
    (hne : prev ≠ target)
    (hp : lookupIcon reg prev = some rp) (_hpa : rp.isActive = true)
    (ht : lookupIcon reg target = some rt)
    (hok : activateIcon reg target t = .ok reg2) :
    lookupIcon reg2 prev = some { rp with isActive := false } ∧
    lookupIcon reg2 target = some { rt with isActive := true, lastUpdated := t } ∧
    ({ rp with isActive := false }).lastUpdated = rp.lastUpdated := by
  have hreg2 : reg2 = activatedReg reg target t := by
    by_cases hv : target = ""
    · simp [activateIcon, hv] at hok
    · cases he : lookupIcon reg target with
      | none => simp [activateIcon, hv, he] at hok
      | some r =>
        have h3 : activatedReg reg target t = reg2 := by
          simpa [activateIcon, hv, he] using hok
        exact h3.symm
  subst hreg2
  refine ⟨?one, ?two, rfl⟩
  · rw [lookupIcon_activated, hp]
    simp [hne]
  · rw [lookupIcon_activated, ht]
    simp

theorem c4_activate_updates_witness :
    lookupIcon (activatedReg (initIcons 0 0 0) "navratri1" 5) "DEFAULT" =
      some { name := "Default", url := "/uploads/icons/default.png",
             isActive := false, lastUpdated := 0 } ∧
    lookupIcon (activatedReg (initIcons 0 0 0) "navratri1" 5) "navratri1" =
      some { name := "Navratri 1", url := "/uploads/icons/navratri1.png",
             isActive := true, lastUpdated := 5 } ∧
    (0 : Nat) = 0 :=
  c4_activate_updates (initIcons 0 0 0) (activatedReg (initIcons 0 0 0) "navratri1" 5)
    "DEFAULT" "navratri1" 5
    { name := "Default", url := "/uploads/icons/default.png",
      isActive := true, lastUpdated := 0 }
    { name := "Navratri 1", url := "/uploads/icons/navratri1.png",
      isActive := false, lastUpdated := 0 }
    (by decide) rfl rfl rfl rfl

/-- C5: a rejected add (duplicate id, all fields present) and a rejected
activate (unknown, nonempty id) produce the documented errors and leave
the whole registry state unchanged. -/
theorem c5_failed_mutations_atomic (reg : Registry) (n d u m : String) (t t2 : Nat)
    (hn : n ≠ "") (hd : d ≠ "") (hu : u ≠ "")
    (hdup : (lookupIcon reg n).isSome)
    (hm : m ≠ "") (habs : lookupIcon reg m = none) :
    addIcon reg n d u t = .error .alreadyExists ∧
    applyOp reg (.add n d u t) = reg ∧
    activateIcon reg m t2 = .error .notFound ∧
    applyOp reg (.activate m t2) = reg := by
  have hv : ¬(n = "" ∨ d = "" ∨ u = "") := by simp [hn, hd, hu]
  refine ⟨?a, ?b, ?c, ?d⟩ <;> simp [addIcon, activateIcon, applyOp, hv, hdup, hm, habs]

theorem c5_failed_mutations_atomic_witness :
    addIcon (initIcons 0 0 0) "DEFAULT" "Display" "/u.png" 7 = .error .alreadyExists ∧
    applyOp (initIcons 0 0 0) (.add "DEFAULT" "Display" "/u.png" 7) = initIcons 0 0 0 ∧
    activateIcon (initIcons 0 0 0) "ghost" 9 = .error .notFound ∧
    applyOp (initIcons 0 0 0) (.activate "ghost" 9) = initIcons 0 0 0 :=
  c5_failed_mutations_atomic (initIcons 0 0 0) "DEFAULT" "Display" "/u.png" "ghost" 7 9
    (by decide) (by decide) (by decide) rfl (by decide) rfl

/-! ## Feedback ingestion pipeline (src/app.js lines 272-424)

External collaborators are explicit parameters: the outcome Cloudinary
would give each attachment, a setup-level fault flag for the outer
cloudinaryError catch, the Sheets append outcome, and the two moment()
clock strings. -/

/-- The object resolved by uploadToCloudinary (lines 112-119). -/
structure UploadResult where
  url : String
  public_id : String
  original_name : String
  width : Nat
  height : Nat
  bytes : Nat
deriving DecidableEq, Repr

/-- One attachment of a submission, tagged with the outcome its upload
attempt would have. -/
inductive FileOutcome where
  | ok (r : UploadResult)
  | fail (msg : String)
deriving DecidableEq, Repr

/-- The per-file upload loop (lines 319-331): a failed upload is logged
and skipped, a successful one pushes its url and details in order. -/
def uploadLoop : List FileOutcome → List String × List UploadResult
  | [] => ([], [])
  | .ok r :: rest =>
      let p := uploadLoop rest
      (r.url :: p.1, r :: p.2)
  | .fail _ :: rest => uploadLoop rest

/-- The successful uploads in input order. -/
def succUploads (files : List FileOutcome) : List UploadResult :=
  files.filterMap (fun f => match f with | .ok r => some r | .fail _ => none)

/-- The urls of the successful uploads in input order. -/
def succUrls (files : List FileOutcome) : List String :=
  (succUploads files).map (fun r => r.url)

/-- JS String.prototype.trim on the char list: drop leading and
trailing whitespace. -/
def trimStr (s : String) : String :=
  String.mk
    (((s.data.dropWhile Char.isWhitespace).reverse.dropWhile Char.isWhitespace).reverse)

/-- The JS validation guard at lines 292 and 299:
`!field || field.trim() === ''`. -/
def isBlank : Option String → Bool
  | none => true
  | some s => s = "" || trimStr s = ""

/-- JS `x || dflt` on an optional string field: an absent value and the
empty string (both falsy) fall back to the default. -/
def orElseStr (x : Option String) (dflt : String) : String :=
  match x with
  | none => dflt
  | some s => if s = "" then dflt else s

/-- JS `x?.trim() || ''` (also used for the validated title and
description, where the value is present). -/
def optTrim : Option String → String
  | none => ""
  | some s => trimStr s

/-- The body of POST /api/feedback, `req.body` fields. -/
structure FeedbackRequest where
  title : Option String
  description : Option String
  userId : Option String
  emailId : Option String
  customDate : Option String
  customTimestamp : Option String
deriving DecidableEq, Repr

/-- The `data` object of the 201 response (lines 363-372). -/
structure SubmissionResponse where
  id : String
  submittedAt : String
  photosUploaded : Nat
  photosAttempted : Nat
  title : String
  description : String
  photoUrls : List String
  photoDetails : List UploadResult
deriving DecidableEq, Repr

/-- How the handler answers: 400 validation, 500 upload-fatal,
500 store-fault, or 201 created. -/
inductive SubmitResult where
  | validationError (error : String)
  | uploadFatal
  | storeError
  | created (data : SubmissionResponse)
deriving DecidableEq, Repr

/-- The observable outcome of one submission: the response, the sheet
rows afterwards, and how many uploader calls were made. -/
structure SubmitOutcome where
  result : SubmitResult
  store : List (List String)
  uploadCalls : Nat
deriving DecidableEq, Repr

/-- Project the 201 payload out of a result. -/
def responseOf : SubmitResult → Option SubmissionResponse
  | .created r => some r
  | _ => none

/-- The row appendToSheet writes (lines 161-171), built from the
feedbackData object (lines 346-354). -/
def feedbackRow (req : FeedbackRequest) (urls : List String)
    (date timestamp : String) : List String :=
  [optTrim req.title, optTrim req.description, String.intercalate ", " urls,
   optTrim req.userId, optTrim req.emailId, date, timestamp]

/-- Tail of the handler: assemble feedbackData, append it to the sheet,
and build the 201 payload (lines 345-373); a failed append falls to the
outer catch and answers 500 with no row written (lines 375-382). -/
def finishSubmit (req : FeedbackRequest) (urls : List String)
    (details : List UploadResult) (attempted : Nat) (appendOk : Bool)
    (date timestamp : String) (store : List (List String)) : SubmitOutcome :=
  if appendOk then
    { result := .created
        { id := timestamp, submittedAt := timestamp,
          photosUploaded := urls.length, photosAttempted := attempted,
          title := optTrim req.title, description := optTrim req.description,
          photoUrls := urls, photoDetails := details },
      store := store ++ [feedbackRow req urls date timestamp],
      uploadCalls := attempted }
  else
    { result := .storeError, store := store, uploadCalls := attempted }

/-- POST /api/feedback (lines 272-383): validate title then
description, compute timestamp and date with the JS falsy fallback, run
the upload block only when attachments are present (a setup-level
Cloudinary fault there fails the whole submission via the outer catch
at line 335, before any per-file attempt), then append and answer. -/
def submitFeedback (req : FeedbackRequest) (files : List FileOutcome)
    (uploaderBroken appendOk : Bool) (nowIso nowDate : String)
    (store : List (List String)) : SubmitOutcome :=
  if isBlank req.title then
    { result := .validationError "Title is required", store := store, uploadCalls := 0 }
  else if isBlank req.description then
    { result := .validationError "Description is required", store := store, uploadCalls := 0 }
  else
    let timestamp := orElseStr req.customTimestamp nowIso
    let date := orElseStr req.customDate nowDate
    if files.isEmpty then
      finishSubmit req [] [] 0 appendOk date timestamp store
    else if uploaderBroken then
      { result := .uploadFatal, store := store, uploadCalls := 0 }
    else
      finishSubmit req (uploadLoop files).1 (uploadLoop files).2 files.length
        appendOk date timestamp store

/-! ## Sheet header bootstrap (lines 191-226) and row listing (lines 386-424) -/

/-- The fixed 7-column header row (lines 202-210). -/
def HEADERS : List String :=
  ["Title", "Description", "Photos", "User ID", "Email ID", "Date", "TimeStamp"]

/-- The Sheets table: the header row (none when empty, as the API then
returns no values for A1:G1) and the appended data rows. -/
structure SheetState where
  header : Option (List String)
  dataRows : List (List String)
deriving DecidableEq, Repr

/-- values.get of range A1:G1 (lines 196-199): the API returns no
`values` field when the header row is empty. -/
def getHeaderValues (s : SheetState) : Option (List (List String)) :=
  match s.header with
  | none => none
  | some h => some [h]

/-- initializeSheetHeaders (lines 191-226); the Nat counts the
values.update writes performed. -/
def initializeSheetHeaders (s : SheetState) : SheetState × Nat :=
  match getHeaderValues s with
  | none => ({ s with header := some HEADERS }, 1)
  | some vs =>
      if vs.length = 0 then ({ s with header := some HEADERS }, 1)
      else (s, 0)

/-- `header.toLowerCase().replace(/\s+/g, '_')` on the char list: the
Bool records whether the previous char belonged to a whitespace run, so
each maximal run emits exactly one underscore. -/
def collapseWsAux : Bool → List Char → List Char
  | _, [] => []
  | prevWs, c :: rest =>
      if c.isWhitespace then
        if prevWs then collapseWsAux true rest
        else '_' :: collapseWsAux true rest
      else c :: collapseWsAux false rest

/-- The header-name normalization of line 403. -/
def normalizeHeader (s : String) : String :=
  String.mk (collapseWsAux false (s.data.map Char.toLower))

/-- The row mapping of GET /api/feedback (lines 400-406), as the
association list the JS object assignments build in header order. -/
def mapRow (headers row : List String) : List (String × String) :=
  headers.enum.map (fun p => (normalizeHeader p.2, row.getD p.1 ""))

/-- GET /api/feedback (lines 398-406): row 0 is the header row
(`rows[0] || []`), every later row becomes one record. -/
def listAllFeedback (rows : List (List String)) : List (List (String × String)) :=
  (rows.drop 1).map (fun row => mapRow (rows.headD []) row)

theorem uploadLoop_eq (files : List FileOutcome) :
    uploadLoop files = (succUrls files, succUploads files) := by
  induction files with
  | nil => rfl
  | cons f rest ih =>
    cases f <;> simp [uploadLoop, succUrls, succUploads, List.filterMap_cons, ih]

/-- C2: with a valid title and description, a working uploader
integration and a successful append, per-file failures are logged and
skipped without failing the request: the response is a 201 whose
photoUrls are exactly the urls of the successful uploads in input order
(no placeholder for failures), photosAttempted is the attachment count,
photosUploaded the success count, and the url list is never longer than
the attempt count. -/
theorem c2_partial_upload_failures (req : FeedbackRequest)
    (files : List FileOutcome) (nowIso nowDate : String)
    (store : List (List String))
    (ht : isBlank req.title = false) (hd : isBlank req.description = false) :
    (responseOf (submitFeedback req files false true nowIso nowDate store).result).map
        (fun r => (r.photoUrls, r.photosAttempted, r.photosUploaded)) =
      some (succUrls files, files.length, (succUrls files).length) ∧
    (succUrls files).length ≤ files.length := by
  constructor
  · by_cases hf : files = []
    · subst hf
      simp [submitFeedback, ht, hd, finishSubmit, responseOf, succUrls, succUploads]
    · have hne : files.isEmpty = false := by simp [hf]
      simp [submitFeedback, ht, hd, hne, finishSubmit, responseOf, uploadLoop_eq]
  · have hle : (succUploads files).length ≤ files.length := by
      induction files with
      | nil => simp [succUploads]
      | cons f rest ih =>
        cases f <;> simp [succUploads, List.filterMap_cons] at ih ⊢ <;> omega
    simpa [succUrls] using hle

theorem c2_partial_upload_failures_witness :
    (responseOf (submitFeedback ⟨some "t", some "d", none, none, none, none⟩
        [FileOutcome.ok ⟨"u1", "p1", "a.png", 1, 1, 1⟩,
         FileOutcome.fail "boom",
         FileOutcome.ok ⟨"u3", "p3", "c.png", 1, 1, 1⟩]
        false true "ISO" "DATE" []).result).map
        (fun r => (r.photoUrls, r.photosAttempted, r.photosUploaded)) =
      some (["u1", "u3"], 3, 2) ∧
    (["u1", "u3"] : List String).length ≤ 3 :=
  c2_partial_upload_failures ⟨some "t", some "d", none, none, none, none⟩
    [FileOutcome.ok ⟨"u1", "p1", "a.png", 1, 1, 1⟩,
     FileOutcome.fail "boom",
     FileOutcome.ok ⟨"u3", "p3", "c.png", 1, 1, 1⟩]
    "ISO" "DATE" [] (by decide) (by decide)

/-- C3: a valid submission carrying at least one attachment under a
setup-level uploader fault fails as a whole with the fatal upload
error, before any per-file attempt (zero uploader calls) and with no
record appended to the store. -/
theorem c3_uploader_setup_fault (req : FeedbackRequest)
    (files : List FileOutcome) (appendOk : Bool)
    (nowIso nowDate : String) (store : List (List String))
    (ht : isBlank req.title = false) (hd : isBlank req.description = false)
    (hf : files ≠ []) :
    submitFeedback req files true appendOk nowIso nowDate store =
      { result := .uploadFatal, store := store, uploadCalls := 0 } := by
  have hne : files.isEmpty = false := by simp [hf]
  simp [submitFeedback, ht, hd, hne]

theorem c3_uploader_setup_fault_witness :
    submitFeedback ⟨some "t", some "d", none, none, none, none⟩
        [FileOutcome.ok ⟨"u1", "p1", "a.png", 1, 1, 1⟩] true true "ISO" "DATE" [] =
      { result := .uploadFatal, store := [], uploadCalls := 0 } :=
  c3_uploader_setup_fault ⟨some "t", some "d", none, none, none, none⟩
    [FileOutcome.ok ⟨"u1", "p1", "a.png", 1, 1, 1⟩] true "ISO" "DATE" []
    (by decide) (by decide) (by decide)

/-- C6: a submission whose title is empty or whitespace-only after
trimming (or, with a present title, whose description is) is rejected
with a validation error naming the missing field, before any upload
attempt (zero uploader calls) and without appending a record. -/
theorem c6_validation_short_circuits (req : FeedbackRequest)
    (files : List FileOutcome) (uploaderBroken appendOk : Bool)
    (nowIso nowDate : String) (store : List (List String))
    (h : isBlank req.title = true ∨ isBlank req.description = true) :
    submitFeedback req files uploaderBroken appendOk nowIso nowDate store =
      { result := .validationError
          (if isBlank req.title then "Title is required" else "Description is required"),
        store := store, uploadCalls := 0 } := by
  cases hb : isBlank req.title with
  | true => simp [submitFeedback, hb]
  | false =>
    have hd : isBlank req.description = true := by
      rcases h with h1 | h2
      · rw [hb] at h1; exact absurd h1 (by simp)
      · exact h2
    simp [submitFeedback, hb, hd]

theorem c6_validation_short_circuits_witness :
    submitFeedback ⟨some "   ", some "desc", none, none, none, none⟩
        [FileOutcome.ok ⟨"u1", "p1", "a.png", 1, 1, 1⟩] false true "ISO" "DATE" [] =
      { result := .validationError "Title is required",
        store := [], uploadCalls := 0 } :=
  c6_validation_short_circuits ⟨some "   ", some "desc", none, none, none, none⟩
    [FileOutcome.ok ⟨"u1", "p1", "a.png", 1, 1, 1⟩] false true "ISO" "DATE" []
    (Or.inl (by decide))

/-- C7: the header bootstrap is idempotent: from an empty header row
the first run performs exactly one write, putting the fixed 7-column
header in place, and an immediately following second run performs zero
writes and leaves the sheet unchanged. -/
theorem c7_header_bootstrap_idempotent (s : SheetState) (h : s.header = none) :
    (initializeSheetHeaders s).2 = 1 ∧
    ((initializeSheetHeaders s).1).header = some HEADERS ∧
    (initializeSheetHeaders (initializeSheetHeaders s).1).2 = 0 ∧
    (initializeSheetHeaders (initializeSheetHeaders s).1).1 =
      (initializeSheetHeaders s).1 := by
  simp [initializeSheetHeaders, getHeaderValues, h]

theorem c7_header_bootstrap_idempotent_witness :
    (initializeSheetHeaders ⟨none, []⟩).2 = 1 ∧
    ((initializeSheetHeaders ⟨none, []⟩).1).header = some HEADERS ∧
    (initializeSheetHeaders (initializeSheetHeaders ⟨none, []⟩).1).2 = 0 ∧
    (initializeSheetHeaders (initializeSheetHeaders ⟨none, []⟩).1).1 =
      (initializeSheetHeaders ⟨none, []⟩).1 :=
  c7_header_bootstrap_idempotent ⟨none, []⟩ rfl

/-- C9 (counterexample to the claim as stated): a submission providing
customTimestamp = "" (a provided value) gets the generated ISO time
recorded instead, because the JS fallback at line 308 treats every
falsy string as absent: the recorded timestamp is "ISO", not "". -/
theorem c9_counterexample :
    (submitFeedback ⟨some "t", some "d", none, none, none, some ""⟩
        [] false true "ISO" "DATE" []).store =
      [["t", "d", "", "", "", "DATE", "ISO"]] ∧
    ("" : String) ≠ "ISO" :=
  ⟨rfl, by decide⟩

/-- C9 (amended): for a valid submission the recorded timestamp (in the
appended row and as the response id and submittedAt) is the provided
customTimestamp when that is a nonempty string, and the generated ISO
time when it is absent; likewise the date; an empty string provided for
either field is falsy in JS, hence treated as absent and replaced by
the generated value. -/
theorem c9_timestamp_date (req : FeedbackRequest) (files : List FileOutcome)
    (nowIso nowDate : String) (store : List (List String))
    (ht : isBlank req.title = false) (hd : isBlank req.description = false) :
    (submitFeedback req files false true nowIso nowDate store).store =
      store ++ [feedbackRow req (succUrls files)
        (orElseStr req.customDate nowDate) (orElseStr req.customTimestamp nowIso)] ∧
    (responseOf (submitFeedback req files false true nowIso nowDate store).result).map
        (fun r => (r.id, r.submittedAt)) =
      some (orElseStr req.customTimestamp nowIso, orElseStr req.customTimestamp nowIso) ∧
    (∀ s, req.customTimestamp = some s → s ≠ "" →
      orElseStr req.customTimestamp nowIso = s) ∧
    (req.customTimestamp = none → orElseStr req.customTimestamp nowIso = nowIso) ∧
    (∀ s, req.customDate = some s → s ≠ "" →
      orElseStr req.customDate nowDate = s) ∧
    (req.customDate = none → orElseStr req.customDate nowDate = nowDate) := by
  refine ⟨?r1, ?r2, ?r3, ?r4, ?r5, ?r6⟩
  · by_cases hf : files = []
    · subst hf
      simp [submitFeedback, ht, hd, finishSubmit, succUrls, succUploads]
    · have hne : files.isEmpty = false := by simp [hf]
      simp [submitFeedback, ht, hd, hne, finishSubmit, uploadLoop_eq]
  · by_cases hf : files = []
    · subst hf
      simp [submitFeedback, ht, hd, finishSubmit, responseOf]
    · have hne : files.isEmpty = false := by simp [hf]
      simp [submitFeedback, ht, hd, hne, finishSubmit, responseOf]
  · intro s hs hne2
    simp [orElseStr, hs, hne2]
  · intro hn2
    simp [orElseStr, hn2]
  · intro s hs hne2
    simp [orElseStr, hs, hne2]
  · intro hn2
    simp [orElseStr, hn2]

theorem c9_timestamp_date_witness :
    (submitFeedback ⟨some "t", some "d", none, none, some "CD", some "CT"⟩
        [] false true "ISO" "DATE" []).store =
      [["t", "d", "", "", "", "CD", "CT"]] ∧
    (responseOf (submitFeedback ⟨some "t", some "d", none, none, some "CD", some "CT"⟩
        [] false true "ISO" "DATE" []).result).map
        (fun r => (r.id, r.submittedAt)) =
      some ("CT", "CT") ∧
    (∀ s, (some "CT" : Option String) = some s → s ≠ "" →
      orElseStr (some "CT") "ISO" = s) ∧
    ((some "CT" : Option String) = none → orElseStr (some "CT") "ISO" = "ISO") ∧
    (∀ s, (some "CD" : Option String) = some s → s ≠ "" →
      orElseStr (some "CD") "DATE" = s) ∧
    ((some "CD" : Option String) = none → orElseStr (some "CD") "DATE" = "DATE") :=
  c9_timestamp_date ⟨some "t", some "d", none, none, some "CD", some "CT"⟩
    [] "ISO" "DATE" [] (by decide) (by decide)

theorem getD_map_lt {α β : Type} (l : List α) (f : α → β) (j : Nat) (d : β)
    (d2 : α) (h : j < l.length) : (l.map f).getD j d = f (l.getD j d2) := by
  induction l generalizing j with
  | nil => simp at h
  | cons a rest ih =>
    cases j with
    | zero => simp
    | succ k =>
      have hk : k < rest.length := by simpa using h
      cases hb : rest[k]? with
      | none =>
        have hlen := List.getElem?_eq_none_iff.mp hb
        omega
      | some b => simp [List.getD_cons_succ, hb]

theorem enumFrom_getD (l : List String) (start j : Nat) (h : j < l.length)
    (d : Nat × String) :
    (List.enumFrom start l).getD j d = (start + j, l.getD j "") := by
  induction l generalizing start j with
  | nil => simp at h
  | cons a rest ih =>
    cases j with
    | zero => simp [List.enumFrom]
    | succ k =>
      have hk : k < rest.length := by simpa using h
      rw [show List.enumFrom start (a :: rest)
            = (start, a) :: List.enumFrom (start + 1) rest from rfl,
          List.getD_cons_succ, List.getD_cons_succ, ih (start + 1) k hk]
      have harith : start + 1 + k = start + (k + 1) := by omega
      rw [harith]

theorem mapRow_getD (headers row : List String) (i : Nat)
    (h : i < headers.length) :
    (mapRow headers row).getD i ("", "") =
      (normalizeHeader (headers.getD i ""), row.getD i "") := by
  unfold mapRow
  have hl : i < headers.enum.length := by simpa using h
  rw [getD_map_lt headers.enum _ i ("", "") (0, "") hl]
  rw [show headers.enum = List.enumFrom 0 headers from rfl,
      enumFrom_getD headers 0 i h (0, "")]
  simp

/-- C8: the feedback listing treats row 0 as the header row and yields
one record per later row; record j pairs each header name, lower-cased
with whitespace runs replaced by underscores, with the cell at the same
column index of row j+1, an absent cell of a shorter row defaulting to
the empty string; in particular the seven fixed sheet headers normalize
to the documented keys. -/
theorem c8_list_feedback_rows (rows : List (List String)) (j i : Nat)
    (hj : j + 1 < rows.length) (hi : i < (rows.headD []).length) :
    (listAllFeedback rows).length = rows.length - 1 ∧
    ((listAllFeedback rows).getD j []).getD i ("", "") =
      (normalizeHeader ((rows.headD []).getD i ""),
       (rows.getD (j + 1) []).getD i "") ∧
    HEADERS.map normalizeHeader =
      ["title", "description", "photos", "user_id", "email_id", "date", "timestamp"] := by
  obtain ⟨r0, rest, rfl⟩ : ∃ r0 rest, rows = r0 :: rest := by
    cases rows with
    | nil => simp at hj
    | cons a l => exact ⟨a, l, rfl⟩
  have hj2 : j < rest.length := by simpa using hj
  have hi2 : i < r0.length := by simpa using hi
  refine ⟨by simp [listAllFeedback], ?mid, by rfl⟩
  unfold listAllFeedback
  simp only [List.headD_cons, List.drop_succ_cons, List.drop_zero,
    List.getD_cons_succ]
  rw [getD_map_lt rest _ j [] [] hj2]
  rw [mapRow_getD r0 (rest.getD j []) i hi2]

theorem c8_list_feedback_rows_witness :
    (listAllFeedback [["Title", "User ID"], ["a"]]).length = 1 ∧
    ((listAllFeedback [["Title", "User ID"], ["a"]]).getD 0 []).getD 1 ("", "") =
      ("user_id", "") ∧
    HEADERS.map normalizeHeader =
      ["title", "description", "photos", "user_id", "email_id", "date", "timestamp"] :=
  c8_list_feedback_rows [["Title", "User ID"], ["a"]] 0 1 (by decide) (by decide)

/-- C10: the bootstrap registry has exactly three entries, keyed
DEFAULT, navratri1, navratri3 in insertion order, of which exactly the
DEFAULT record is active, and the current-icon query returns the
DEFAULT record. -/
theorem c10_bootstrap_state (t0 t1 t2 : Nat) :
    (initIcons t0 t1 t2).length = 3 ∧
    keysOf (initIcons t0 t1 t2) = ["DEFAULT", "navratri1", "navratri3"] ∧
    (initIcons t0 t1 t2).filter (fun p => p.2.isActive) =
      [("DEFAULT", { name := "Default", url := "/uploads/icons/default.png",
                     isActive := true, lastUpdated := t0 })] ∧
    getActive (initIcons t0 t1 t2) =
      some ("DEFAULT", { name := "Default", url := "/uploads/icons/default.png",
                         isActive := true, lastUpdated := t0 }) :=
  ⟨rfl, rfl, rfl, rfl⟩

end DiscoveryApi
